import Mathlib

/-!
# Verification of the meal_max contest-resolution and record engine

Shallow embedding of the battle subsystem of this repository:
the record store (`kitchen_model`), the entropy source
(`meal_max/utils/random_utils copy.py`, function `get_random`), and the
arena (`battle_model`).

The source tree contains `random_utils copy.py` and the three test files
`test_kitchen_model.py`, `test_battle_model.py`, `test_random_utils.py`,
but not `kitchen_model.py` / `battle_model.py` themselves.  The entropy
source is therefore embedded from its source file, while the record store
and the arena are modelled from the specification (with the observable
behaviour pinned by the repository's own test files).
-/

namespace MealMax

/-- Modelled from the spec: the enumerated difficulty levels of a
contestant, `difficulty ∈ {LOW, MEDIUM, HIGH}`; the string encoding used
by the store is `"LOW" / "MED" / "HIGH"` (test_kitchen_model:
"Must be LOW, MED, or HIGH"). -/
inductive Difficulty
  | LOW
  | MED
  | HIGH
  deriving DecidableEq, BEq, Repr

/-- Modelled from the spec: decoding of the difficulty string accepted at
creation time; every other string is an invalid difficulty level. -/
def Difficulty.ofString : String → Option Difficulty
  | "LOW" => some .LOW
  | "MED" => some .MED
  | "HIGH" => some .HIGH
  | _ => none

/-- Modelled from the spec: a contestant as the Arena sees it
(the `Meal` dataclass: id, name, category string, positive price,
difficulty level); the soft-delete flag and the counters are owned by the
record store and not exposed here. -/
structure Meal where
  id : Nat
  meal : String
  cuisine : String
  price : ℚ
  difficulty : Difficulty
  deriving DecidableEq, BEq, Repr

/-- Modelled from the spec: one persisted row of the record store —
the contestant fields together with the soft-delete marker and the
cumulative battle/win counters. -/
structure MealRow where
  id : Nat
  meal : String
  cuisine : String
  price : ℚ
  difficulty : Difficulty
  deleted : Bool
  battles : Nat
  wins : Nat
  deriving DecidableEq, BEq, Repr

/-- Modelled from the spec: the record store state — the rows in
insertion order, plus the next surrogate id to assign at creation. -/
structure Kitchen where
  rows : List MealRow
  nextId : Nat
  deriving DecidableEq, Repr

/-- Modelled from the spec: the closed error kinds raised by the record
store (`ValidationError`, `ConflictError`, `NotFoundError`, `GoneError`;
all surface as `ValueError` in the Python source). -/
inductive KitchenError
  | validation (msg : String)
  | conflict (msg : String)
  | notFound (msg : String)
  | gone (msg : String)
  deriving DecidableEq, Repr

/-- Modelled from the spec: `create(name, category, price, difficulty)`.
Validates `price > 0` and the difficulty encoding, rejects an exact
duplicate of the full `(name, category, price, difficulty)` tuple, and
otherwise appends a fresh row with `battles = 0`, `wins = 0`,
`deleted = false` under the next surrogate id.  The price check precedes
the difficulty check, as in `test_create_meal_invalid_price` /
`test_create_meal_invalid_difficulty`. -/
def create_meal (k : Kitchen) (meal cuisine : String) (price : ℚ)
    (difficulty : String) : Except KitchenError Kitchen :=
  if price ≤ 0 then
    .error (.validation ("Invalid price: " ++ toString price ++
      ". Price must be a positive number."))
  else
    match Difficulty.ofString difficulty with
    | none => .error (.validation ("Invalid difficulty level: " ++
        difficulty ++ ". Must be LOW, MED, or HIGH."))
    | some d =>
      if k.rows.any (fun row => row.meal == meal && row.cuisine == cuisine
          && row.price == price && row.difficulty == d) then
        .error (.conflict ("Meal with name " ++ meal ++ " already exists"))
      else
        .ok { rows := k.rows ++
                [{ id := k.nextId, meal := meal, cuisine := cuisine,
                   price := price, difficulty := d, deleted := false,
                   battles := 0, wins := 0 }],
              nextId := k.nextId + 1 }

/-- Modelled from the spec: `softDelete(id)` — `NotFoundError` if no row
has this id, `GoneError` if the row is already soft-deleted, otherwise
the row's `deleted` flag is flipped to true (the mirror of
`UPDATE meals SET deleted = TRUE WHERE id = ?` in the tests). -/
def delete_meal (k : Kitchen) (id : Nat) : Except KitchenError Kitchen :=
  match k.rows.find? (fun row => row.id == id) with
  | none => .error (.notFound ("Meal with ID " ++ toString id ++ " not found"))
  | some row =>
    if row.deleted then
      .error (.gone ("Meal with ID " ++ toString id ++ " has been deleted"))
    else
      .ok { k with rows := k.rows.map (fun r =>
              if r.id == id then { r with deleted := true } else r) }

/-- Modelled from the spec: `recordOutcome(id, result)` — `NotFoundError`
if the id is absent, `GoneError` if the row is soft-deleted (checked
before the result string, as in `test_update_meal_stats_deleted_meal`);
`result = "win"` increments both counters, `result = "loss"` increments
`battles` only, and any other result string is a validation error
(`test_update_meal_stats_invalid_result`). -/
def update_meal_stats (k : Kitchen) (id : Nat) (result : String) :
    Except KitchenError Kitchen :=
  match k.rows.find? (fun row => row.id == id) with
  | none => .error (.notFound ("Meal with ID " ++ toString id ++ " not found"))
  | some row =>
    if row.deleted then
      .error (.gone ("Meal with ID " ++ toString id ++ " has been deleted"))
    else if result == "win" then
      .ok { k with rows := k.rows.map (fun r =>
              if r.id == id then
                { r with battles := r.battles + 1, wins := r.wins + 1 }
              else r) }
    else if result == "loss" then
      .ok { k with rows := k.rows.map (fun r =>
              if r.id == id then { r with battles := r.battles + 1 } else r) }
    else
      .error (.validation ("Invalid result: " ++ result ++
        ". Expected win or loss."))

/-- Modelled from the spec: the two leaderboard sort keys,
`sortKey ∈ {WINS, WIN_RATE}` (`sort_by="wins"` / `sort_by="win_pct"` in
the tests). -/
inductive SortKey
  | wins
  | winRate
  deriving DecidableEq, Repr

/-- Modelled from the spec: one leaderboard entry — a qualifying row
annotated with its win rate as a percentage. -/
structure LeaderEntry where
  id : Nat
  meal : String
  cuisine : String
  price : ℚ
  difficulty : Difficulty
  battles : Nat
  wins : Nat
  winPct : ℚ
  deriving DecidableEq, Repr

/-- Modelled from the spec: rounding of a rational to two-decimal
precision (nearest hundredth). -/
def twoDec (q : ℚ) : ℚ := (round (q * 100) : ℤ) / 100

/-- Modelled from the spec: annotate a stored row with
`winRate = wins / battles`, expressed as a percentage with two-decimal
precision. -/
def annotateRow (r : MealRow) : LeaderEntry :=
  { id := r.id, meal := r.meal, cuisine := r.cuisine, price := r.price,
    difficulty := r.difficulty, battles := r.battles, wins := r.wins,
    winPct := twoDec ((r.wins : ℚ) * 100 / (r.battles : ℚ)) }

/-- Modelled from the spec: the numeric value of an entry under the
chosen sort key. -/
def entryKey : SortKey → LeaderEntry → ℚ
  | .wins, e => (e.wins : ℚ)
  | .winRate, e => e.winPct

/-- Modelled from the spec: a row qualifies for the leaderboard when it
is not soft-deleted and has fought at least one battle
(`WHERE deleted = false AND battles > 0`). -/
def qualifies (r : MealRow) : Bool := !r.deleted && decide (0 < r.battles)

/-- Modelled from the spec: `leaderboard(sortKey)` — the qualifying rows
in insertion order, annotated with their win percentage, stably sorted
descending by the chosen key (insertion sort is stable, so ties keep
insertion order). -/
def get_leaderboard (k : Kitchen) (key : SortKey) : List LeaderEntry :=
  ((k.rows.filter qualifies).map annotateRow).insertionSort
    (fun a b => entryKey key b ≤ entryKey key a)

/-- The first sample contestant of `test_battle_model.py`:
`Meal(1, 'Meal 1', 'Cuisine 1', 20.00, 'HIGH')`. -/
def sampleMeal1 : Meal :=
  { id := 1, meal := "Meal 1", cuisine := "Cuisine 1", price := 20,
    difficulty := .HIGH }

/-- The second sample contestant of `test_battle_model.py`:
`Meal(2, 'Meal 2', 'Cuisine 2', 10.00, 'LOW')`. -/
def sampleMeal2 : Meal :=
  { id := 2, meal := "Meal 2", cuisine := "Cuisine 2", price := 10,
    difficulty := .LOW }

/-- A stored row for the first sample contestant, fresh from creation. -/
def sampleRow1 : MealRow :=
  { id := 1, meal := "Meal 1", cuisine := "Cuisine 1", price := 20,
    difficulty := .HIGH, deleted := false, battles := 0, wins := 0 }

/-- A stored row for the second sample contestant, fresh from creation. -/
def sampleRow2 : MealRow :=
  { id := 2, meal := "Meal 2", cuisine := "Cuisine 2", price := 10,
    difficulty := .LOW, deleted := false, battles := 0, wins := 0 }

/-- A store holding the two fresh sample rows. -/
def sampleKitchen : Kitchen := { rows := [sampleRow1, sampleRow2], nextId := 3 }

/-- A store whose only row is soft-deleted. -/
def sampleGoneKitchen : Kitchen :=
  { rows := [{ sampleRow1 with deleted := true }], nextId := 2 }

end MealMax

namespace RandomUtils

open MealMax

/-- Outcome of the underlying `requests.get` call in `get_random`
(file `random_utils copy.py`): the request may time out
(`requests.exceptions.Timeout`), fail at transport level
(`requests.exceptions.RequestException`, which also covers the
`HTTPError` that `raise_for_status` raises on an unsuccessful status),
or deliver a response body. -/
inductive HttpOutcome
  | timeout
  | transportFailure (msg : String)
  | ok (body : String)
  deriving DecidableEq, Repr

/-- The Python exception kinds `get_random` raises: `RuntimeError` for
timeout/transport failure, `ValueError` for an unparsable payload. -/
inductive PyError
  | runtimeError (msg : String)
  | valueError (msg : String)
  deriving DecidableEq, Repr

/-- The exact whitespace set of CPython (`Py_UNICODE_ISSPACE`), used by
both `str.strip()` and `float()`: the ASCII controls 0x09–0x0D and
0x1C–0x1F, space, NEL (0x85), NBSP (0xA0), Ogham space mark (0x1680),
the Zs runs 0x2000–0x200A, line/paragraph separator (0x2028/0x2029),
narrow no-break space (0x202F), medium mathematical space (0x205F), and
ideographic space (0x3000). -/
def pyIsSpace (c : Char) : Bool :=
  let n := c.toNat
  (9 ≤ n && n ≤ 13) || (28 ≤ n && n ≤ 32) || n == 133 || n == 160 ||
    n == 5760 || (8192 ≤ n && n ≤ 8202) || n == 8232 || n == 8233 ||
    n == 8239 || n == 8287 || n == 12288

/-- Removal of the characters satisfying `p` from both ends of a
character list. -/
def stripEnds (p : Char → Bool) (cs : List Char) : List Char :=
  ((cs.dropWhile p).reverse.dropWhile p).reverse

/-- The Python `str.strip()` call applied to the response text:
the characters of `pyIsSpace` are removed from both ends. -/
def pyStrip (s : String) : String := ⟨stripEnds pyIsSpace s.data⟩

/-- The surrounding whitespace `float()` itself tolerates: CPython
first maps every non-ASCII `pyIsSpace` character to a space, then its
C-level parser skips only C whitespace (0x09–0x0D and space) — so,
unlike `str.strip()`, `float()` does not skip the ASCII separators
0x1C–0x1F (`float("\x1c1.5")` raises `ValueError` although
`"\x1c1.5".strip()` removes the 0x1C). -/
def floatSkippable (c : Char) : Bool :=
  let n := c.toNat
  (9 ≤ n && n ≤ 13) || n == 32 || (127 < n && pyIsSpace c)

/-- The values Python `float()` can produce: a finite value (modelled as
the exact rational value of the literal), the two infinities, or NaN.
IEEE-754 rounding of finite literals, and the overflow of huge finite
literals such as `1e400` to an infinity, are not modelled: a finite
literal is kept as its exact rational, which never changes whether a
call succeeds or fails. -/
inductive PyFloat
  | finite (q : ℚ)
  | inf
  | negInf
  | nan
  deriving DecidableEq, Repr

/-- Numeric value of a list of decimal digit characters. -/
def digitsVal (ds : List Char) : Nat :=
  ds.foldl (fun n c => 10 * n + (c.toNat - 48)) 0

/-- Whether a list of characters is a nonempty run of decimal digits. -/
def allDigits (ds : List Char) : Bool := !ds.isEmpty && ds.all Char.isDigit

/-- Unsigned mantissa of a Python float literal: `digits`,
`digits . digits?`, or `. digits` (at least one digit overall). -/
def mantissaVal (cs : List Char) : Option ℚ :=
  match cs.splitOn '.' with
  | [a] => if allDigits a then some (digitsVal a : ℚ) else none
  | [a, b] =>
    if (a.all Char.isDigit && b.all Char.isDigit && !(a ++ b).isEmpty) then
      some ((digitsVal (a ++ b) : ℚ) / 10 ^ b.length)
    else none
  | _ => none

/-- Optionally signed nonempty digit run, as an integer (the exponent
part of a Python float literal). -/
def signedDigitsVal (cs : List Char) : Option ℤ :=
  match cs with
  | '+' :: rest => if allDigits rest then some (digitsVal rest : ℤ) else none
  | '-' :: rest => if allDigits rest then some (-(digitsVal rest : ℤ)) else none
  | rest => if allDigits rest then some (digitsVal rest : ℤ) else none

/-- PEP 515 underscore validation, as in CPython's
`_Py_string_to_number_with_underscores`: every underscore must stand
immediately between two ASCII decimal digits (so `1_0` and `1_000.5`
are accepted, while `_1`, `1_`, `1__0`, `1_.5` and `1e_5` are
rejected).  The first argument carries the previous character of the
scan. -/
def underscoreOK : Option Char → List Char → Bool
  | _, [] => true
  | prev, c :: rest =>
    if c == '_' then
      (match prev, rest with
        | some p, n :: _ => p.isDigit && n.isDigit
        | _, _ => false) && underscoreOK (some c) rest
    else underscoreOK (some c) rest

/-- Numeric part of `float()` on a lowercased, underscore-free,
whitespace-free character list with the leading sign already removed:
the case-insensitive special literals `inf` / `infinity` / `nan`, or a
decimal mantissa with an optional `e`-exponent. -/
def pyFloatCore (neg : Bool) (cs : List Char) : Option PyFloat :=
  if cs = ['i', 'n', 'f'] ∨ cs = ['i', 'n', 'f', 'i', 'n', 'i', 't', 'y'] then
    some (if neg then PyFloat.negInf else PyFloat.inf)
  else if cs = ['n', 'a', 'n'] then
    some PyFloat.nan
  else
    match cs.splitOn 'e' with
    | [m] => (mantissaVal m).map (fun q => .finite (if neg then -q else q))
    | [m, ex] => do
      let q ← mantissaVal m
      let k ← signedDigitsVal ex
      pure (.finite ((if neg then -q else q) * (10 : ℚ) ^ k))
    | _ => none

/-- The Python builtin `float(s)`: the surrounding whitespace that
`float()` tolerates (`floatSkippable`) is dropped, letters are lowered
(CPython matches `inf`/`nan`/`e` ASCII-case-insensitively), PEP 515
underscores are validated and removed, an optional leading sign is
taken, and the remainder is a special literal or a decimal numeral.
Numerals written with non-ASCII digits, which CPython first maps to
ASCII through the Unicode category-Nd table of its interpreter's
Unicode version (a table the repository does not pin), are outside this
model. -/
def pyFloat (s : String) : Option PyFloat :=
  let cs := (stripEnds floatSkippable s.data).map Char.toLower
  if underscoreOK none cs then
    match cs.filter (fun c => c != '_') with
    | '+' :: rest => pyFloatCore false rest
    | '-' :: rest => pyFloatCore true rest
    | rest => pyFloatCore false rest
  else none

/-- Embedding of `get_random` (`random_utils copy.py`): a timeout raises
`RuntimeError "Request to random.org timed out."`; any other
`RequestException` (connection failure, or the `HTTPError` from
`raise_for_status`) raises `RuntimeError "Request to random.org failed:
..."`; otherwise the body is stripped of surrounding whitespace and
parsed with `float`, an unparsable payload raising
`ValueError "Invalid response from random.org: ..."` and a parsable one
being returned as is — with no range check of any kind. -/
def get_random (resp : HttpOutcome) : Except PyError PyFloat :=
  match resp with
  | .timeout => .error (.runtimeError "Request to random.org timed out.")
  | .transportFailure e =>
    .error (.runtimeError ("Request to random.org failed: " ++ e))
  | .ok body =>
    let stripped := pyStrip body
    match pyFloat stripped with
    | some q => .ok q
    | none =>
      .error (.valueError ("Invalid response from random.org: " ++ stripped))

end RandomUtils

namespace MealMax

/-- Modelled from the spec: the Arena error kinds — `CapacityError`
("arena is full"), `DuplicateError` (same contestant id staged twice),
`InsufficientContestantsError` (resolve with fewer than two staged), and
`UnavailableError` surfaced when the entropy draw fails. -/
inductive BattleError
  | capacity (msg : String)
  | duplicate (msg : String)
  | insufficient (msg : String)
  | entropyUnavailable
  | store (e : KitchenError)
  deriving DecidableEq, Repr

/-- Modelled from the spec: the Arena state — the ordered slot set of at
most two staged contestants (`BattleModel.combatants`). -/
structure BattleModel where
  combatants : List Meal
  deriving DecidableEq, Repr

/-- Modelled from the spec: `prep(contestant)` — staging a contestant
whose id is already in the slot set fails with `DuplicateError`
("Meal with ID ... already exists in the battle",
`test_add_duplicate_meal_to_battle`), staging into a full arena fails
with `CapacityError`, otherwise the contestant is appended to the slots.
The duplicate check precedes the capacity check; the spec leaves their
relative order at the full-arena state unspecified. -/
def prep_combatant (bm : BattleModel) (m : Meal) :
    Except BattleError BattleModel :=
  if bm.combatants.any (fun c => c.id == m.id) then
    .error (.duplicate ("Meal with ID " ++ toString m.id ++
      " already exists in the battle"))
  else if 2 ≤ bm.combatants.length then
    .error (.capacity "Combatant list is full, cannot add more combatants.")
  else
    .ok { combatants := bm.combatants ++ [m] }

/-- Modelled from the spec: `clear()` empties the slot set from any
state (`clear_combatants`). -/
def clear_combatants (_ : BattleModel) : BattleModel := { combatants := [] }

/-- Modelled from the spec: `getStaged()` returns the staged contestants
in staging order (`get_combatants`). -/
def get_combatants (bm : BattleModel) : List Meal := bm.combatants

/-- Modelled from the spec: the difficulty penalty of the score
function, `HIGH → 1`, `MEDIUM → 2`, `LOW → 3`. -/
def difficultyPenalty : Difficulty → ℚ
  | .HIGH => 1
  | .MED => 2
  | .LOW => 3

/-- Modelled from the spec: the per-contestant score,
`score = price × length(category) − difficultyPenalty(difficulty)`; a
pure function of the contestant's own fields. -/
def get_battle_score (m : Meal) : ℚ :=
  m.price * (m.cuisine.length : ℚ) - difficultyPenalty m.difficulty

/-- Modelled from the spec: `delta` is clamped into the range [0, 1).
The spec fixes the interval but not the clamp bound below 1; the entropy
provider is queried for two-decimal fractions (`dec=2`), whose largest
value below 1 is 0.99, so the clamp bound is taken as 99/100. -/
def clamp01 (q : ℚ) : ℚ := min q (99 / 100)

/-- Modelled from the spec: `resolve()` (`battle`).  From a state with
fewer than two staged contestants it fails with
`InsufficientContestantsError` and does not touch the entropy stream.
From Ready it computes both scores in staging order, forms
`delta = clamp01(|scoreA − scoreB| / 100)`, consumes exactly one entropy
value `r`; if `r < delta` the contestant with the strictly higher score
wins, otherwise the first-staged contestant wins.  If the entropy stream
is exhausted (the draw fails) nothing is mutated and the arena stays
Ready.  Otherwise both `recordOutcome` calls are issued (the winner with
"win", then the loser with "loss") even if the first fails, the slots
are cleared regardless, the first store failure (if any) is surfaced,
and on success the winner's name is returned.  The function returns the
new arena, the new store, the remaining entropy stream, and the
outcome. -/
def battle (bm : BattleModel) (k : Kitchen) (entropy : List ℚ) :
    BattleModel × Kitchen × List ℚ × Except BattleError String :=
  match bm.combatants with
  | [a, b] =>
    match entropy with
    | [] => (bm, k, entropy, .error .entropyUnavailable)
    | r :: rest =>
      let scoreA := get_battle_score a
      let scoreB := get_battle_score b
      let delta := clamp01 (|scoreA - scoreB| / 100)
      let pair := if r < delta then
          (if scoreA < scoreB then (b, a) else (a, b))
        else (a, b)
      let winner := pair.1
      let loser := pair.2
      let resW := update_meal_stats k winner.id "win"
      let kW := match resW with | .ok k1 => k1 | .error _ => k
      let resL := update_meal_stats kW loser.id "loss"
      let kL := match resL with | .ok k2 => k2 | .error _ => kW
      let outcome : Except BattleError String :=
        match resW, resL with
        | .ok _, .ok _ => .ok winner.meal
        | .error e, _ => .error (.store e)
        | _, .error e => .error (.store e)
      ({ combatants := [] }, kL, rest, outcome)
  | _ => (bm, k, entropy,
      .error (.insufficient "Two combatants must be prepped for a battle."))

end MealMax

namespace MealMax

/-! ## Helper lemmas -/

theorem find_map_of_id_preserved (rows : List MealRow) (f : MealRow → MealRow)
    (id : Nat) (hf : ∀ r, (f r).id = r.id) :
    (rows.map f).find? (fun row => row.id == id) =
      ((rows.find? (fun row => row.id == id)).map f) := by
  induction rows with
  | nil => rfl
  | cons a t ih =>
    by_cases h : a.id == id
    · rw [List.map_cons, List.find?_cons_of_pos, List.find?_cons_of_pos] <;>
        simp [hf, h]
    · rw [List.map_cons, List.find?_cons_of_neg, List.find?_cons_of_neg, ih] <;>
        simp [hf, h]

theorem update_meal_stats_win_ok (k : Kitchen) (id : Nat) (row : MealRow)
    (hfind : k.rows.find? (fun r => r.id == id) = some row)
    (hdel : row.deleted = false) :
    update_meal_stats k id "win" =
      .ok { k with rows := k.rows.map (fun r =>
        if r.id == id then
          { r with battles := r.battles + 1, wins := r.wins + 1 }
        else r) } := by
  unfold update_meal_stats
  rw [hfind]
  simp [hdel]

theorem update_meal_stats_loss_ok (k : Kitchen) (id : Nat) (row : MealRow)
    (hfind : k.rows.find? (fun r => r.id == id) = some row)
    (hdel : row.deleted = false) :
    update_meal_stats k id "loss" =
      .ok { k with rows := k.rows.map (fun r =>
        if r.id == id then { r with battles := r.battles + 1 } else r) } := by
  unfold update_meal_stats
  rw [hfind]
  simp [hdel]

/-! ## Claim theorems -/

/-- C2: the score of a contestant is the pure function
`price × length(category) − difficultyPenalty(difficulty)` with
`HIGH → 1`, `MEDIUM → 2`, `LOW → 3`, independent of any opponent; a
contestant with `price = 20` and a category of length 9 scores 179 at
HIGH, 178 at MEDIUM, 177 at LOW. -/
theorem battle_score_spec (id : Nat) (name c : String) (h : c.length = 9) :
    get_battle_score ⟨id, name, c, 20, .HIGH⟩ = 179 ∧
    get_battle_score ⟨id, name, c, 20, .MED⟩ = 178 ∧
    get_battle_score ⟨id, name, c, 20, .LOW⟩ = 177 ∧
    difficultyPenalty .HIGH = 1 ∧ difficultyPenalty .MED = 2 ∧
    difficultyPenalty .LOW = 3 ∧
    (∀ (price : ℚ) (d : Difficulty),
      get_battle_score ⟨id, name, c, price, d⟩ =
        price * (c.length : ℚ) - difficultyPenalty d) := by
  refine ⟨?_, ?_, ?_, rfl, rfl, rfl, fun price d => rfl⟩ <;>
    simp [get_battle_score, difficultyPenalty, h] <;> norm_num

theorem battle_score_spec_witness :
    ("Cuisine 1".length = 9) ∧
      get_battle_score ⟨1, "Meal 1", "Cuisine 1", 20, .HIGH⟩ = 179 :=
  ⟨by decide, (battle_score_spec 1 "Meal 1" "Cuisine 1" (by decide)).1⟩

/-- C7: staging a contestant whose id is already present in the arena's
slot set fails with `DuplicateError` ("Meal with ID ... already exists
in the battle"); no slot is added (the slot set is returned
unchanged in no success value). -/
theorem prep_combatant_duplicate (bm : BattleModel) (m : Meal)
    (h : m.id ∈ bm.combatants.map Meal.id) :
    prep_combatant bm m = .error (.duplicate ("Meal with ID " ++
      toString m.id ++ " already exists in the battle")) := by
  obtain ⟨c, hc, hcid⟩ := List.mem_map.mp h
  unfold prep_combatant
  have : bm.combatants.any (fun c => c.id == m.id) = true :=
    List.any_eq_true.mpr ⟨c, hc, by simp [hcid]⟩
  simp [this]

theorem prep_combatant_duplicate_witness :
    prep_combatant { combatants := [sampleMeal1] } sampleMeal1 =
      .error (.duplicate ("Meal with ID " ++ toString sampleMeal1.id ++
        " already exists in the battle")) :=
  prep_combatant_duplicate { combatants := [sampleMeal1] } sampleMeal1
    (by simp [sampleMeal1])

/-- C9: creation fails with `ValidationError` whenever `price ≤ 0`, and
fails with `ValidationError` whenever the difficulty string is not the
encoding of one of the three enumerated levels; in either failure no
record is stored (no store value is produced). -/
theorem create_meal_invalid_spec (k : Kitchen) (meal cuisine : String)
    (price : ℚ) (difficulty : String) :
    (price ≤ 0 → ∃ msg,
      create_meal k meal cuisine price difficulty = .error (.validation msg)) ∧
    (Difficulty.ofString difficulty = none → ∃ msg,
      create_meal k meal cuisine price difficulty = .error (.validation msg)) := by
  constructor
  · intro hp
    exact ⟨"Invalid price: " ++ toString price ++
      ". Price must be a positive number.",
      by unfold create_meal; rw [if_pos hp]⟩
  · intro hd
    by_cases hp : price ≤ 0
    · exact ⟨"Invalid price: " ++ toString price ++
        ". Price must be a positive number.",
        by unfold create_meal; rw [if_pos hp]⟩
    · exact ⟨"Invalid difficulty level: " ++ difficulty ++
        ". Must be LOW, MED, or HIGH.",
        by unfold create_meal; rw [if_neg hp, hd]⟩

theorem create_meal_invalid_spec_witness :
    (∃ msg, create_meal sampleKitchen "Meal Name" "Cuisine Type"
      (-(1999 : ℚ) / 100) "LOW" = .error (.validation msg)) ∧
    (∃ msg, create_meal sampleKitchen "Meal Name" "Meal Cuisine"
      (1999 / 100) "invalid" = .error (.validation msg)) :=
  ⟨(create_meal_invalid_spec sampleKitchen "Meal Name" "Cuisine Type"
      (-(1999 : ℚ) / 100) "LOW").1 (by norm_num),
   (create_meal_invalid_spec sampleKitchen "Meal Name" "Meal Cuisine"
      (1999 / 100) "invalid").2 rfl⟩

/-- C3: for a stored contestant and a result in {WIN, LOSS},
`recordOutcome` (`update_meal_stats`) fails with `GoneError` when the
contestant is soft-deleted (producing no updated store), and otherwise
increments that contestant's `battles` counter by exactly 1 always and
its `wins` counter by exactly 1 iff the result is WIN, leaving every row
with a different id unchanged. -/
theorem update_meal_stats_spec (k : Kitchen) (id : Nat) (row : MealRow)
    (result : String)
    (hfind : k.rows.find? (fun r => r.id == id) = some row)
    (hres : result = "win" ∨ result = "loss") :
    (row.deleted = true → ∃ msg,
      update_meal_stats k id result = .error (.gone msg)) ∧
    (row.deleted = false →
      update_meal_stats k id result =
        .ok { k with rows := k.rows.map (fun r =>
          if r.id == id then
            { r with battles := r.battles + 1,
                     wins := r.wins + (if result = "win" then 1 else 0) }
          else r) }) := by
  constructor
  · intro hd
    exact ⟨"Meal with ID " ++ toString id ++ " has been deleted",
      by unfold update_meal_stats; rw [hfind]; simp [hd]⟩
  · intro hd
    rcases hres with h | h <;> subst h
    · rw [update_meal_stats_win_ok k id row hfind hd]
      simp
    · rw [update_meal_stats_loss_ok k id row hfind hd]
      simp

theorem update_meal_stats_spec_witness :
    (update_meal_stats sampleKitchen 1 "win" =
      .ok { sampleKitchen with rows := sampleKitchen.rows.map (fun r =>
        if r.id == 1 then
          { r with battles := r.battles + 1,
                   wins := r.wins + (if "win" = "win" then 1 else 0) }
        else r) }) ∧
    (∃ msg, update_meal_stats sampleGoneKitchen 1 "loss" =
      .error (.gone msg)) :=
  ⟨(update_meal_stats_spec sampleKitchen 1 sampleRow1 "win"
      (by decide) (Or.inl rfl)).2 rfl,
   (update_meal_stats_spec sampleGoneKitchen 1
      { sampleRow1 with deleted := true } "loss"
      (by decide) (Or.inr rfl)).1 rfl⟩

/-- C8: `softDelete` (`delete_meal`) fails with `NotFoundError` when no
record with the id exists, fails with `GoneError` when the record is
already soft-deleted, and otherwise flips the record's deleted flag to
true; consequently a second `softDelete` of the same id always fails
with `GoneError`. -/
theorem delete_meal_spec (k : Kitchen) (id : Nat) :
    (k.rows.find? (fun r => r.id == id) = none → ∃ msg,
      delete_meal k id = .error (.notFound msg)) ∧
    (∀ row, k.rows.find? (fun r => r.id == id) = some row →
      (row.deleted = true → ∃ msg,
        delete_meal k id = .error (.gone msg)) ∧
      (row.deleted = false → ∃ k',
        delete_meal k id = .ok k' ∧
        k'.rows = k.rows.map (fun r =>
          if r.id == id then { r with deleted := true } else r) ∧
        ∃ msg, delete_meal k' id = .error (.gone msg))) := by
  constructor
  · intro h
    exact ⟨"Meal with ID " ++ toString id ++ " not found",
      by unfold delete_meal; rw [h]⟩
  · intro row hfind
    constructor
    · intro hd
      exact ⟨"Meal with ID " ++ toString id ++ " has been deleted",
        by unfold delete_meal; rw [hfind]; simp [hd]⟩
    · intro hd
      refine ⟨{ k with rows := k.rows.map (fun r : MealRow =>
          if r.id == id then { r with deleted := true } else r) },
        by unfold delete_meal; rw [hfind]; simp [hd], rfl, ?_⟩
      have hp : row.id = id := by
        have h2 := List.find?_some hfind
        simpa using h2
      have hfId : ∀ r : MealRow,
          ((fun r : MealRow =>
            if r.id == id then { r with deleted := true } else r) r).id =
            r.id := by
        intro r
        by_cases h : (r.id == id) = true <;> simp [h]
      have hf : (k.rows.map (fun r =>
            if r.id == id then { r with deleted := true } else r)).find?
            (fun r => r.id == id) = some { row with deleted := true } := by
        rw [find_map_of_id_preserved _ _ id hfId, hfind]
        simp [hp]
      exact ⟨"Meal with ID " ++ toString id ++ " has been deleted",
        by unfold delete_meal; rw [hf]; simp⟩

theorem delete_meal_spec_witness :
    ∃ k', delete_meal sampleKitchen 1 = .ok k' ∧
      k'.rows = sampleKitchen.rows.map (fun r =>
        if r.id == 1 then { r with deleted := true } else r) ∧
      ∃ msg, delete_meal k' 1 = .error (.gone msg) :=
  ((delete_meal_spec sampleKitchen 1).2 sampleRow1 (by decide)).2 rfl

/-- C10: recording an outcome with any result string other than exactly
"win" or "loss" (including "WIN" and "LOSS") on an existing, non-deleted
contestant fails with the validation error "Invalid result: ... Expected
win or loss." and produces no updated store. -/
theorem update_meal_stats_invalid_result (k : Kitchen) (id : Nat)
    (row : MealRow) (result : String)
    (hfind : k.rows.find? (fun r => r.id == id) = some row)
    (hdel : row.deleted = false)
    (hw : result ≠ "win") (hl : result ≠ "loss") :
    update_meal_stats k id result = .error (.validation
      ("Invalid result: " ++ result ++ ". Expected win or loss.")) := by
  unfold update_meal_stats
  rw [hfind]
  simp [hdel, hw, hl]

theorem update_meal_stats_invalid_result_witness :
    update_meal_stats sampleKitchen 1 "WIN" = .error (.validation
      ("Invalid result: " ++ "WIN" ++ ". Expected win or loss.")) :=
  update_meal_stats_invalid_result sampleKitchen 1 sampleRow1 "WIN"
    (by decide) rfl (by decide) (by decide)

end MealMax

namespace RandomUtils

/-- C5 counterexample: a successful call to `get_random` is not always
in [0, 1) — the payload "1.00", whose success the repository's own
`test_get_random_one` asserts, parses to 100/10² = 1, which is not
strictly below 1 (and `test_get_random` likewise asserts the successful
return of 42). -/
theorem get_random_not_below_one :
    get_random (.ok "1.00") = .ok (.finite ((100 : ℚ) / 10 ^ 2)) ∧
    ((100 : ℚ) / 10 ^ 2) = 1 ∧ ¬((100 : ℚ) / 10 ^ 2 < 1) ∧
    get_random (.ok "42") = .ok (.finite 42) ∧ ¬((42 : ℚ) < 1) :=
  ⟨rfl, by norm_num, by norm_num, rfl, by norm_num⟩

/-- C5 (amended): every successful call to `get_random` returns exactly
the value `float()` parses from the whitespace-stripped payload; no
[0, 1) range restriction is enforced by the code, so the result lies in
[0, 1) only when the payload's number does. -/
theorem get_random_returns_parsed :
    (∀ (resp : HttpOutcome) (v : PyFloat), get_random resp = .ok v →
      ∃ body, resp = .ok body ∧ pyFloat (pyStrip body) = some v) ∧
    (∀ (body : String) (v : PyFloat), pyFloat (pyStrip body) = some v →
      get_random (.ok body) = .ok v) := by
  constructor
  · intro resp v h
    cases resp with
    | timeout => simp [get_random] at h
    | transportFailure e => simp [get_random] at h
    | ok body =>
      refine ⟨body, rfl, ?_⟩
      cases hp : pyFloat (pyStrip body) with
      | none => simp [get_random, hp] at h
      | some w =>
        simp only [get_random, hp] at h
        exact congrArg some (Except.ok.inj h)
  · intro body v h
    simp [get_random, h]

theorem get_random_returns_parsed_witness :
    get_random (.ok "0.42\n") = .ok (.finite ((42 : ℚ) / 10 ^ 2)) ∧
    get_random (.ok "1_000.5") = .ok (.finite ((10005 : ℚ) / 10 ^ 1)) :=
  ⟨get_random_returns_parsed.2 "0.42\n" (.finite ((42 : ℚ) / 10 ^ 2)) rfl,
   get_random_returns_parsed.2 "1_000.5"
     (.finite ((10005 : ℚ) / 10 ^ 1)) rfl⟩

/-- C6: `get_random` fails with `RuntimeError` (`UnavailableError`) iff
the request timed out or the transport failed (which covers the
`HTTPError` of an unsuccessful status), fails with `ValueError`
(`MalformedResponseError`) iff the payload, after stripping surrounding
whitespace, cannot be parsed as a number (including the empty payload),
and otherwise returns the parsed number. -/
theorem get_random_error_spec (resp : HttpOutcome) :
    ((∃ msg, get_random resp = .error (.runtimeError msg)) ↔
      (resp = .timeout ∨ ∃ e, resp = .transportFailure e)) ∧
    ((∃ msg, get_random resp = .error (.valueError msg)) ↔
      (∃ body, resp = .ok body ∧ pyFloat (pyStrip body) = none)) ∧
    (∀ (body : String) (v : PyFloat), resp = .ok body →
      pyFloat (pyStrip body) = some v → get_random resp = .ok v) := by
  cases resp with
  | timeout => simp [get_random]
  | transportFailure e => simp [get_random]
  | ok body =>
    cases hp : pyFloat (pyStrip body) with
    | none =>
      refine ⟨by simp [get_random, hp], by simp [get_random, hp], ?_⟩
      intro b v hb hq
      cases hb
      rw [hp] at hq
      exact absurd hq (by simp)
    | some w =>
      refine ⟨by simp [get_random, hp], by simp [get_random, hp], ?_⟩
      intro b v hb hq
      cases hb
      rw [hp] at hq
      cases hq
      simp [get_random, hp]

theorem get_random_error_spec_witness :
    (∃ msg, get_random (.ok "invalid_response") =
      .error (.valueError msg)) ∧
    (∃ msg, get_random (.ok "") = .error (.valueError msg)) ∧
    (∃ msg, get_random .timeout = .error (.runtimeError msg)) ∧
    get_random (.ok "1_0") = .ok (.finite 10) ∧
    get_random (.ok "inf") = .ok .inf ∧
    get_random (.ok "0.42\u00A0") = .ok (.finite ((42 : ℚ) / 10 ^ 2)) :=
  ⟨(get_random_error_spec (.ok "invalid_response")).2.1.mpr
      ⟨"invalid_response", rfl, rfl⟩,
   (get_random_error_spec (.ok "")).2.1.mpr ⟨"", rfl, rfl⟩,
   (get_random_error_spec .timeout).1.mpr (Or.inl rfl),
   (get_random_error_spec (.ok "1_0")).2.2 "1_0" (.finite 10) rfl rfl,
   (get_random_error_spec (.ok "inf")).2.2 "inf" .inf rfl rfl,
   (get_random_error_spec (.ok "0.42\u00A0")).2.2 "0.42\u00A0"
     (.finite ((42 : ℚ) / 10 ^ 2)) rfl rfl⟩

end RandomUtils

namespace MealMax

/-- C4: the leaderboard contains exactly the non-deleted contestants
with `battles > 0`, each annotated with `winRate = wins / battles`
expressed as a percentage with two-decimal precision, sorted descending
by the chosen key (WINS or WIN_RATE) with ties broken by insertion order
(stable sort), and is empty when no contestant qualifies. -/
theorem get_leaderboard_spec (k : Kitchen) (key : SortKey) :
    List.Perm (get_leaderboard k key)
      ((k.rows.filter qualifies).map annotateRow) ∧
    List.Sorted (fun a b => entryKey key b ≤ entryKey key a)
      (get_leaderboard k key) ∧
    (∀ e₁ e₂, List.Sublist [e₁, e₂]
        ((k.rows.filter qualifies).map annotateRow) →
      entryKey key e₂ ≤ entryKey key e₁ →
      List.Sublist [e₁, e₂] (get_leaderboard k key)) ∧
    (∀ e, e ∈ get_leaderboard k key ↔
      ∃ r ∈ k.rows, r.deleted = false ∧ 0 < r.battles ∧ e = annotateRow r) ∧
    (∀ e ∈ get_leaderboard k key,
      e.winPct = twoDec ((e.wins : ℚ) * 100 / (e.battles : ℚ))) ∧
    ((∀ r ∈ k.rows, ¬(r.deleted = false ∧ 0 < r.battles)) →
      get_leaderboard k key = []) := by
  have hq : ∀ r : MealRow,
      qualifies r = true ↔ (r.deleted = false ∧ 0 < r.battles) := by
    intro r
    simp [qualifies]
  have hmem : ∀ e, e ∈ get_leaderboard k key ↔
      ∃ r ∈ k.rows, r.deleted = false ∧ 0 < r.battles ∧ e = annotateRow r := by
    intro e
    unfold get_leaderboard
    rw [List.mem_insertionSort]
    constructor
    · intro he
      obtain ⟨r, hr, he⟩ := List.mem_map.mp he
      obtain ⟨hrk, hrq⟩ := List.mem_filter.mp hr
      obtain ⟨hd, hb⟩ := (hq r).mp hrq
      exact ⟨r, hrk, hd, hb, he.symm⟩
    · rintro ⟨r, hr, hd, hb, rfl⟩
      exact List.mem_map_of_mem _
        (List.mem_filter.mpr ⟨hr, (hq r).mpr ⟨hd, hb⟩⟩)
  haveI : IsTotal LeaderEntry (fun a b => entryKey key b ≤ entryKey key a) :=
    ⟨fun a b => le_total (entryKey key b) (entryKey key a)⟩
  haveI : IsTrans LeaderEntry (fun a b => entryKey key b ≤ entryKey key a) :=
    ⟨fun _ _ _ h1 h2 => le_trans h2 h1⟩
  refine ⟨List.perm_insertionSort _ _, List.sorted_insertionSort _ _,
    ?_, hmem, ?_, ?_⟩
  · intro e₁ e₂ hsub hle
    exact List.pair_sublist_insertionSort hle hsub
  · intro e he
    obtain ⟨r, _, _, _, rfl⟩ := (hmem e).mp he
    simp [annotateRow]
  · intro h
    have hfil : k.rows.filter qualifies = [] := by
      rw [List.filter_eq_nil_iff]
      intro r hr
      cases hqr : qualifies r with
      | false => simp
      | true => exact absurd ((hq r).mp hqr) (h r hr)
    unfold get_leaderboard
    rw [hfil]
    rfl

theorem get_leaderboard_spec_witness :
    get_leaderboard sampleGoneKitchen .wins = [] :=
  (get_leaderboard_spec sampleGoneKitchen .wins).2.2.2.2.2
    (by simp [sampleGoneKitchen, sampleRow1])

end MealMax

namespace MealMax

theorem battle_stats_ok (k : Kitchen) (w l : Meal) (roww rowl : MealRow)
    (hW : k.rows.find? (fun row => row.id == w.id) = some roww)
    (hL : k.rows.find? (fun row => row.id == l.id) = some rowl)
    (hdW : roww.deleted = false) (hdL : rowl.deleted = false)
    (hlw : l.id ≠ w.id) :
    update_meal_stats k w.id "win" =
      .ok { k with rows := k.rows.map (fun rr : MealRow =>
        if rr.id == w.id then
          { rr with battles := rr.battles + 1, wins := rr.wins + 1 }
        else rr) } ∧
    update_meal_stats { k with rows := k.rows.map (fun rr : MealRow =>
        if rr.id == w.id then
          { rr with battles := rr.battles + 1, wins := rr.wins + 1 }
        else rr) } l.id "loss" =
      .ok { k with rows := (k.rows.map (fun rr : MealRow =>
        if rr.id == w.id then
          { rr with battles := rr.battles + 1, wins := rr.wins + 1 }
        else rr)).map (fun rr : MealRow =>
        if rr.id == l.id then { rr with battles := rr.battles + 1 }
        else rr) } := by
  have hidl : rowl.id = l.id := by
    have h2 := List.find?_some hL
    simpa using h2
  constructor
  · exact update_meal_stats_win_ok k w.id roww hW hdW
  · have hfId : ∀ rr : MealRow,
        ((fun rr : MealRow =>
          if rr.id == w.id then
            { rr with battles := rr.battles + 1, wins := rr.wins + 1 }
          else rr) rr).id = rr.id := by
      intro rr
      by_cases h : (rr.id == w.id) = true <;> simp [h]
    have hmapL : (k.rows.map (fun rr : MealRow =>
        if rr.id == w.id then
          { rr with battles := rr.battles + 1, wins := rr.wins + 1 }
        else rr)).find? (fun row => row.id == l.id) = some rowl := by
      rw [find_map_of_id_preserved _ _ l.id hfId, hL]
      have hne : ¬rowl.id = w.id := by rw [hidl]; exact hlw
      simp [hne]
    exact update_meal_stats_loss_ok _ l.id rowl hmapL hdL

/-- C1: resolving a Ready arena staged with contestants `a` (slot A,
staged first) then `b` computes
`delta = clamp01(|scoreA − scoreB| / 100)`, a value in [0, 1); draws
exactly one value `r` from the entropy stream; and selects the winner so
that if `r < delta` the contestant with the strictly higher score wins
(the scores are then necessarily distinct) and otherwise the first-staged
contestant `a` wins.  With both contestants stored and live, the outcome
carries the winner's name. -/
theorem battle_resolution (a b : Meal) (k : Kitchen) (r : ℚ) (rs : List ℚ)
    (rowA rowB : MealRow)
    (hA : k.rows.find? (fun row => row.id == a.id) = some rowA)
    (hB : k.rows.find? (fun row => row.id == b.id) = some rowB)
    (hdA : rowA.deleted = false) (hdB : rowB.deleted = false)
    (hab : a.id ≠ b.id) (hr : 0 ≤ r) :
    (battle ⟨[a, b]⟩ k (r :: rs)).1 = ⟨[]⟩ ∧
    (battle ⟨[a, b]⟩ k (r :: rs)).2.2.1 = rs ∧
    (battle ⟨[a, b]⟩ k (r :: rs)).2.2.2 =
      .ok (if r < clamp01 (|get_battle_score a - get_battle_score b| / 100)
           then (if get_battle_score a < get_battle_score b
                 then b.meal else a.meal)
           else a.meal) ∧
    0 ≤ clamp01 (|get_battle_score a - get_battle_score b| / 100) ∧
    clamp01 (|get_battle_score a - get_battle_score b| / 100) < 1 ∧
    (r < clamp01 (|get_battle_score a - get_battle_score b| / 100) →
      get_battle_score a ≠ get_battle_score b) := by
  have h0d : 0 ≤ clamp01 (|get_battle_score a - get_battle_score b| / 100) :=
    le_min (by positivity) (by norm_num)
  have h1d : clamp01 (|get_battle_score a - get_battle_score b| / 100) < 1 :=
    lt_of_le_of_lt (min_le_right _ _) (by norm_num)
  have hne : r < clamp01 (|get_battle_score a - get_battle_score b| / 100) →
      get_battle_score a ≠ get_battle_score b := by
    intro hlt heq
    rw [heq] at hlt
    have hz : clamp01 (|get_battle_score b - get_battle_score b| / 100) = 0 := by
      simp [clamp01]
      norm_num
    rw [hz] at hlt
    linarith
  by_cases hlt : r < clamp01 (|get_battle_score a - get_battle_score b| / 100)
  · by_cases hsc : get_battle_score a < get_battle_score b
    · obtain ⟨hwin, hloss⟩ :=
        battle_stats_ok k b a rowB rowA hB hA hdB hdA hab
      refine ⟨rfl, rfl, ?_, h0d, h1d, hne⟩
      simp only [battle, hlt, hsc, ite_true, hwin, hloss]
    · obtain ⟨hwin, hloss⟩ :=
        battle_stats_ok k a b rowA rowB hA hB hdA hdB (Ne.symm hab)
      refine ⟨rfl, rfl, ?_, h0d, h1d, hne⟩
      simp only [battle, hlt, hsc, ite_true, ite_false, hwin, hloss]
  · obtain ⟨hwin, hloss⟩ :=
      battle_stats_ok k a b rowA rowB hA hB hdA hdB (Ne.symm hab)
    refine ⟨rfl, rfl, ?_, h0d, h1d, hne⟩
    simp only [battle, hlt, ite_false, hwin, hloss]

end MealMax

namespace MealMax

theorem battle_resolution_witness :
    (battle ⟨[sampleMeal1, sampleMeal2]⟩ sampleKitchen
        ((1 / 2 : ℚ) :: [])).2.2.1 = [] ∧
    (battle ⟨[sampleMeal1, sampleMeal2]⟩ sampleKitchen
        ((1 / 2 : ℚ) :: [])).2.2.2 =
      .ok (if (1 / 2 : ℚ) < clamp01
              (|get_battle_score sampleMeal1 -
                get_battle_score sampleMeal2| / 100)
           then (if get_battle_score sampleMeal1 <
                    get_battle_score sampleMeal2
                 then sampleMeal2.meal else sampleMeal1.meal)
           else sampleMeal1.meal) :=
  ⟨(battle_resolution sampleMeal1 sampleMeal2 sampleKitchen (1 / 2) []
      sampleRow1 sampleRow2 rfl rfl rfl rfl (by decide) (by norm_num)).2.1,
   (battle_resolution sampleMeal1 sampleMeal2 sampleKitchen (1 / 2) []
      sampleRow1 sampleRow2 rfl rfl rfl rfl (by decide) (by norm_num)).2.2.1⟩

end MealMax
